import Mathlib

/-!
Shallow embedding of the face liveness / anti-spoofing verification pipeline
of the smart-attendance backend.

The embedding follows the Python sources:
  backend/liveness_detection.py  (indicator detectors, score calculator,
                                  frontal validator)
  backend/main.py                (GPS-invalid attempt counter, the
                                  attendance_checkin pipeline, setup_faceid)
  backend/pose_detect.py         (Euler-angle extraction and clamping)

Python floats are modelled as rationals (all constants involved are exact
decimals and every operation used is field arithmetic, comparison, min/max),
except for the trigonometric Euler-angle extraction in pose_detect.py which
is modelled over the reals.  External collaborators (OpenCV face detection,
the embedding model, geodesic distance, MongoDB, notification dispatch) are
modelled as explicit inputs or explicit state, as described at each
definition.
-/

/-- Push onto a `collections.deque(maxlen := n)`: append on the right and
drop from the left when the length exceeds `n`. -/
def dequePush (maxlen : Nat) (l : List ℚ) (x : ℚ) : List ℚ :=
  let l2 := l ++ [x]
  l2.drop (l2.length - maxlen)

/-- State of `EyeBlinkDetector` (liveness_detection.py lines 14-121):
threshold, rolling EAR history (deque maxlen = history_size), blink counter
and the `in_blink` hysteresis flag. -/
structure EyeBlinkDetector where
  threshold : ℚ
  history_size : Nat
  ear_history : List ℚ
  blink_count : Nat
  in_blink : Bool
deriving DecidableEq, Repr

/-- `EyeBlinkDetector.__init__(threshold, history_size)`. -/
def EyeBlinkDetector.init (threshold : ℚ) (history_size : Nat) : EyeBlinkDetector :=
  { threshold := threshold
    history_size := history_size
    ear_history := []
    blink_count := 0
    in_blink := false }

/-- One step of `EyeBlinkDetector.detect_blink` (lines 93-107), taking the
already-averaged EAR of the frame (the geometric EAR computation from the
landmark coordinates is numpy vector arithmetic upstream of this state
machine; the detector consumes only `avg_ear`).  Returns the new state and
the `blink_detected` flag returned by the Python method. -/
def EyeBlinkDetector.detect_blink (d : EyeBlinkDetector) (avg_ear : ℚ) :
    EyeBlinkDetector × Bool :=
  let d := { d with ear_history := dequePush d.history_size d.ear_history avg_ear }
  if avg_ear < d.threshold ∧ d.in_blink = false then
    ({ d with in_blink := true, blink_count := d.blink_count + 1 }, true)
  else if d.threshold ≤ avg_ear ∧ d.in_blink = true then
    ({ d with in_blink := false }, false)
  else
    (d, false)

/-- `EyeBlinkDetector.reset` (lines 117-121). -/
def EyeBlinkDetector.reset (d : EyeBlinkDetector) : EyeBlinkDetector :=
  { d with blink_count := 0, in_blink := false, ear_history := [] }

/-- Feed a sequence of per-frame averaged EAR values to the blink detector. -/
def runBlinkSequence (d : EyeBlinkDetector) (ears : List ℚ) : EyeBlinkDetector :=
  ears.foldl (fun s e => (s.detect_blink e).1) d

/-- State of `MouthMovementDetector` (liveness_detection.py lines 124-228). -/
structure MouthMovementDetector where
  threshold : ℚ
  history_size : Nat
  mar_history : List ℚ
  mouth_movement_count : Nat
  in_movement : Bool
deriving DecidableEq, Repr

/-- `MouthMovementDetector.__init__(threshold, history_size)`. -/
def MouthMovementDetector.init (threshold : ℚ) (history_size : Nat) :
    MouthMovementDetector :=
  { threshold := threshold
    history_size := history_size
    mar_history := []
    mouth_movement_count := 0
    in_movement := false }

/-- One step of `MouthMovementDetector.detect_mouth_movement` (lines
199-214), on the already-computed MAR of the frame. -/
def MouthMovementDetector.detect_mouth_movement (d : MouthMovementDetector)
    (mar : ℚ) : MouthMovementDetector × Bool :=
  let d := { d with mar_history := dequePush d.history_size d.mar_history mar }
  if d.threshold < mar ∧ d.in_movement = false then
    ({ d with in_movement := true,
              mouth_movement_count := d.mouth_movement_count + 1 }, true)
  else if mar ≤ d.threshold ∧ d.in_movement = true then
    ({ d with in_movement := false }, false)
  else
    (d, false)

/-- `MouthMovementDetector.reset` (lines 224-228). -/
def MouthMovementDetector.reset (d : MouthMovementDetector) : MouthMovementDetector :=
  { d with mouth_movement_count := 0, in_movement := false, mar_history := [] }

/-- A pose triple (yaw, pitch, roll) in degrees, as rationals. -/
structure PoseTriple where
  yaw : ℚ
  pitch : ℚ
  roll : ℚ
deriving DecidableEq, Repr

/-- Push a pose onto a deque of poses (maxlen semantics as `dequePush`). -/
def dequePushPose (maxlen : Nat) (l : List PoseTriple) (x : PoseTriple) :
    List PoseTriple :=
  let l2 := l ++ [x]
  l2.drop (l2.length - maxlen)

/-- State of `HeadMovementTracker` (liveness_detection.py lines 231-306). -/
structure HeadMovementTracker where
  movement_threshold : ℚ
  history_size : Nat
  pose_history : List PoseTriple
  head_movement_count : Nat
  last_significant_pose : Option PoseTriple
deriving DecidableEq, Repr

/-- `HeadMovementTracker.__init__(movement_threshold, history_size)`. -/
def HeadMovementTracker.init (movement_threshold : ℚ) (history_size : Nat) :
    HeadMovementTracker :=
  { movement_threshold := movement_threshold
    history_size := history_size
    pose_history := []
    head_movement_count := 0
    last_significant_pose := none }

/-- `HeadMovementTracker.track_head_movement` (lines 252-296): append the
current pose to the history; with fewer than two recorded frames, or with no
reference pose yet, just install the reference; otherwise compare the
maximal componentwise absolute difference against the threshold, counting
and re-anchoring on a significant movement. -/
def HeadMovementTracker.track_head_movement (t : HeadMovementTracker)
    (yaw pitch roll : ℚ) : HeadMovementTracker × Bool :=
  let current : PoseTriple := ⟨yaw, pitch, roll⟩
  let t := { t with pose_history := dequePushPose t.history_size t.pose_history current }
  if t.pose_history.length < 2 then
    ({ t with last_significant_pose := some current }, false)
  else
    match t.last_significant_pose with
    | none => ({ t with last_significant_pose := some current }, false)
    | some ref =>
      let max_diff := max (|current.yaw - ref.yaw|)
        (max (|current.pitch - ref.pitch|) (|current.roll - ref.roll|))
      if t.movement_threshold < max_diff then
        ({ t with head_movement_count := t.head_movement_count + 1,
                  last_significant_pose := some current }, true)
      else
        (t, false)

/-- `HeadMovementTracker.reset` (lines 302-306). -/
def HeadMovementTracker.reset (t : HeadMovementTracker) : HeadMovementTracker :=
  { t with head_movement_count := 0, last_significant_pose := none,
           pose_history := [] }

/-- `LivenessScoreCalculator` after construction (liveness_detection.py
lines 309-349): the three weights, the verification threshold, and the
normalization cap `max_indicators`. -/
structure LivenessScoreCalculator where
  blink_weight : ℚ
  mouth_weight : ℚ
  head_movement_weight : ℚ
  threshold : ℚ
  max_indicators : Nat
deriving DecidableEq, Repr

/-- `LivenessScoreCalculator.__init__` (lines 319-349): if the weight sum
differs from 1.0 by more than 0.01 the three weights are divided by their
sum; dividing by a zero sum raises ZeroDivisionError in Python, modelled as
`none`. -/
def LivenessScoreCalculator.init (blink_weight mouth_weight head_movement_weight
    threshold : ℚ) (max_indicators : Nat) : Option LivenessScoreCalculator :=
  let total := blink_weight + mouth_weight + head_movement_weight
  if |total - 1| > 1/100 then
    if total = 0 then none
    else some { blink_weight := blink_weight / total
                mouth_weight := mouth_weight / total
                head_movement_weight := head_movement_weight / total
                threshold := threshold
                max_indicators := max_indicators }
  else
    some { blink_weight := blink_weight
           mouth_weight := mouth_weight
           head_movement_weight := head_movement_weight
           threshold := threshold
           max_indicators := max_indicators }

/-- `np.clip(x, 0, 1)`. -/
def clip01 (x : ℚ) : ℚ := max 0 (min 1 x)

/-- `LivenessScoreCalculator.calculate_liveness_score` (lines 351-395):
normalize each count as `min(1, count / max_indicators)`, take the weighted
sum, and clip the result to [0, 1].  With `max_indicators = 0` the Python
division raises ZeroDivisionError, which the surrounding `except` turns
into a returned score of 0.0. -/
def LivenessScoreCalculator.calculate_liveness_score
    (c : LivenessScoreCalculator) (blink_count mouth_movement_count
    head_movement_count : Nat) : ℚ :=
  if c.max_indicators = 0 then 0
  else
    let blink_score := min 1 ((blink_count : ℚ) / (c.max_indicators : ℚ))
    let mouth_score := min 1 ((mouth_movement_count : ℚ) / (c.max_indicators : ℚ))
    let head_score := min 1 ((head_movement_count : ℚ) / (c.max_indicators : ℚ))
    clip01 (c.blink_weight * blink_score + c.mouth_weight * mouth_score +
      c.head_movement_weight * head_score)

/-- `LivenessScoreCalculator.is_liveness_verified` (lines 397-407). -/
def LivenessScoreCalculator.is_liveness_verified (c : LivenessScoreCalculator)
    (liveness_score : ℚ) : Bool :=
  c.threshold ≤ liveness_score

/-- Tolerances of `FrontalFaceValidator` (liveness_detection.py lines
428-455). -/
structure FrontalFaceValidator where
  yaw_tolerance : ℚ
  pitch_tolerance : ℚ
  roll_tolerance : ℚ
deriving DecidableEq, Repr

/-- Per-axis flags of `validate_frontal_face` (the Vietnamese reason strings
of the source are one per violated axis and carry no further decision
content; the flags determine them). -/
structure FrontalValidationDetails where
  is_frontal : Bool
  yaw_valid : Bool
  pitch_valid : Bool
  roll_valid : Bool
deriving DecidableEq, Repr

/-- `FrontalFaceValidator.validate_frontal_face` (lines 456-510):
`is_frontal` is falsified by each axis whose absolute angle exceeds its
tolerance; the per-axis `_valid` flags use the same comparisons. -/
def FrontalFaceValidator.validate_frontal_face (v : FrontalFaceValidator)
    (yaw pitch roll : ℚ) : Bool × FrontalValidationDetails :=
  let yaw_valid := decide (|yaw| ≤ v.yaw_tolerance)
  let pitch_valid := decide (|pitch| ≤ v.pitch_tolerance)
  let roll_valid := decide (|roll| ≤ v.roll_tolerance)
  let is_frontal := yaw_valid && pitch_valid && roll_valid
  (is_frontal,
   { is_frontal := is_frontal
     yaw_valid := yaw_valid
     pitch_valid := pitch_valid
     roll_valid := roll_valid })

/-- The two scalar measurements that `analyze_frame` extracts from the 68
landmark points of one frame: the two-eye averaged EAR (lines 81-90 of
liveness_detection.py, numpy distance arithmetic) and the MAR (lines
194-197).  The landmark geometry itself is upstream numpy code; the
detectors consume only these two values. -/
structure FrameMeasures where
  avg_ear : ℚ
  mar : ℚ
deriving DecidableEq, Repr

/-- `LivenessAnalyzer` (liveness_detection.py lines 524-560): the three
indicator detectors plus the score calculator.  The frontal validator
member is stateless and modelled at its use sites. -/
structure LivenessAnalyzer where
  blink_detector : EyeBlinkDetector
  mouth_detector : MouthMovementDetector
  head_tracker : HeadMovementTracker
  score_calculator : LivenessScoreCalculator
deriving DecidableEq, Repr

/-- The `status` field of an `analyze_frame` result. -/
inductive LivenessStatus where
  | noFaceStatus
  | noLiveness
  | livenessVerified
deriving DecidableEq, Repr

/-- The fields of the `analyze_frame` result dictionary that carry decision
content (the guidance message is a fixed function of the score and
threshold, per `get_guidance_message`). -/
structure AnalyzeFrameResult where
  face_detected : Bool
  blink_detected : Bool
  blink_count : Nat
  mouth_movement_detected : Bool
  mouth_movement_count : Nat
  head_movement_detected : Bool
  head_movement_count : Nat
  liveness_score : ℚ
  status : LivenessStatus
deriving DecidableEq, Repr

/-- `LivenessAnalyzer.analyze_frame` (lines 562-642): with no landmarks the
result keeps zero counts, score 0 and no-face status; otherwise run the
three detectors on the frame, compute the weighted score from the updated
counts, and set the status from `is_liveness_verified`. -/
def LivenessAnalyzer.analyze_frame (a : LivenessAnalyzer)
    (landmarks : Option FrameMeasures) (yaw pitch roll : ℚ) :
    LivenessAnalyzer × AnalyzeFrameResult :=
  match landmarks with
  | none =>
    (a, { face_detected := false
          blink_detected := false, blink_count := 0
          mouth_movement_detected := false, mouth_movement_count := 0
          head_movement_detected := false, head_movement_count := 0
          liveness_score := 0
          status := LivenessStatus.noFaceStatus })
  | some m =>
    let (bd, blink_detected) := a.blink_detector.detect_blink m.avg_ear
    let (md, mouth_detected) := a.mouth_detector.detect_mouth_movement m.mar
    let (ht, head_detected) := a.head_tracker.track_head_movement yaw pitch roll
    let score := a.score_calculator.calculate_liveness_score
      bd.blink_count md.mouth_movement_count ht.head_movement_count
    ({ a with blink_detector := bd, mouth_detector := md, head_tracker := ht },
     { face_detected := true
       blink_detected := blink_detected, blink_count := bd.blink_count
       mouth_movement_detected := mouth_detected
       mouth_movement_count := md.mouth_movement_count
       head_movement_detected := head_detected
       head_movement_count := ht.head_movement_count
       liveness_score := score
       status := if a.score_calculator.is_liveness_verified score then
           LivenessStatus.livenessVerified
         else LivenessStatus.noLiveness })

/-- The calculator produced by `LivenessScoreCalculator.__init__` at the
module defaults of main.py (blink 0.4, mouth 0.3, head 0.3, threshold 0.6,
max_indicators 10); the weights sum to 1 so no renormalization occurs. -/
def defaultScoreCalculator : LivenessScoreCalculator :=
  { blink_weight := 2/5
    mouth_weight := 3/10
    head_movement_weight := 3/10
    threshold := 3/5
    max_indicators := 10 }

/-- The fresh `LivenessAnalyzer` that `attendance_checkin` constructs for
each request (main.py lines 1650-1655), with the default detector
parameters of the constructors in liveness_detection.py. -/
def checkinAnalyzer : LivenessAnalyzer :=
  { blink_detector := EyeBlinkDetector.init (1/5) 5
    mouth_detector := MouthMovementDetector.init (1/2) 5
    head_tracker := HeadMovementTracker.init 5 10
    score_calculator := defaultScoreCalculator }

/-- A (student_id, class_id, date) key of the GPS-invalid attempt
collection. -/
abbrev GpsKey := String × String × String

/-- One entry of the `attempts` array of a GPS-invalid record (main.py
lines 309-315); the timestamp is supplied by the caller (datetime.utcnow
is an external effect). -/
structure GpsAttemptDetail where
  timestamp : Nat
  latitude : ℚ
  longitude : ℚ
  distance_meters : ℚ
  face_similarity : ℚ
deriving DecidableEq, Repr

/-- One document of the `gps_invalid_attempts` collection. -/
structure GpsInvalidRecord where
  attempt_count : Nat
  attempts : List GpsAttemptDetail
  last_attempt_time : Nat
deriving DecidableEq, Repr

/-- The `gps_invalid_attempts` collection, modelled as a map from key to
optional document (absent key = no document yet). -/
abbrev GpsDb := GpsKey → Option GpsInvalidRecord

/-- `MAX_GPS_INVALID_ATTEMPTS` (main.py line 288). -/
def MAX_GPS_INVALID_ATTEMPTS : Nat := 2

/-- `get_gps_invalid_attempt_count` (main.py lines 290-297). -/
def get_gps_invalid_attempt_count (db : GpsDb) (k : GpsKey) : Nat :=
  match db k with
  | some r => r.attempt_count
  | none => 0

/-- `increment_gps_invalid_attempt` (main.py lines 299-337): upsert with
`$inc attempt_count`, `$push attempts`, `$set last_attempt_time`, then
re-read the document and return its count (1 when somehow still absent). -/
def increment_gps_invalid_attempt (db : GpsDb) (k : GpsKey)
    (detail : GpsAttemptDetail) : GpsDb × Nat :=
  let db2 : GpsDb := fun k2 =>
    if k2 = k then
      match db k with
      | some r => some { attempt_count := r.attempt_count + 1
                         attempts := r.attempts ++ [detail]
                         last_attempt_time := detail.timestamp }
      | none => some { attempt_count := 1
                       attempts := [detail]
                       last_attempt_time := detail.timestamp }
    else db k2
  (db2, match db2 k with
        | some r => r.attempt_count
        | none => 1)

/-- `check_gps_invalid_limit` (main.py lines 339-344): read the current
count and return (is_blocked, current_count, remaining) where remaining is
`max(0, MAX - current)`. -/
def check_gps_invalid_limit (db : GpsDb) (k : GpsKey) : Bool × Nat × Int :=
  let current_count := get_gps_invalid_attempt_count db k
  (decide (MAX_GPS_INVALID_ATTEMPTS ≤ current_count), current_count,
   max 0 ((MAX_GPS_INVALID_ATTEMPTS : Int) - (current_count : Int)))

/-- The outcome of `detect_face_pose_and_angle` on the check-in image as
consumed by `attendance_checkin` (main.py lines 1628-1647): whether the
pose result was 'no_face', the angle values (0 when the angle_info carries
no such key, as on the fallback paths), and the frame measurements when
landmarks are present (`None` on the DNN/resized fallback paths). -/
structure CheckinFrame where
  face_detected : Bool
  yaw : ℚ
  pitch : ℚ
  roll : ℚ
  landmarks : Option FrameMeasures
deriving DecidableEq, Repr

/-- The quantities the check-in liveness stage computes (main.py lines
1649-1685): the indicator-based score of the fresh `LivenessAnalyzer`, the
frontal flag of the `FrontalFaceValidator(20, 20, 15)`, and the ad-hoc
final score `min(1, 0.5 + 0.3·frontal + 0.2·max(0, 1 - (|yaw|+|pitch|)/60))`
that is compared against `CHECKIN_LIVENESS_THRESHOLD = 0.5`. -/
structure LivenessStageData where
  indicator_score : ℚ
  is_frontal : Bool
  final_score : ℚ
deriving DecidableEq, Repr

/-- Computation of the check-in liveness stage on a detected face (main.py
lines 1649-1685). -/
def checkin_liveness_data (frame : CheckinFrame) : LivenessStageData :=
  let liveness_result :=
    (checkinAnalyzer.analyze_frame frame.landmarks frame.yaw frame.pitch frame.roll).2
  let frontal_validator : FrontalFaceValidator :=
    { yaw_tolerance := 20, pitch_tolerance := 20, roll_tolerance := 15 }
  let is_frontal :=
    (frontal_validator.validate_frontal_face frame.yaw frame.pitch frame.roll).1
  let base_score : ℚ := 1/2
  let frontal_bonus : ℚ := if is_frontal then 3/10 else 0
  let pose_quality : ℚ := 1/5 * max 0 (1 - (|frame.yaw| + |frame.pitch|) / 60)
  { indicator_score := liveness_result.liveness_score
    is_frontal := is_frontal
    final_score := min 1 (base_score + frontal_bonus + pose_quality) }

/-- `CHECKIN_LIVENESS_THRESHOLD` (main.py line 1685). -/
def CHECKIN_LIVENESS_THRESHOLD : ℚ := 1/2

/-- `SIMILARITY_THRESHOLD` (main.py line 50). -/
def SIMILARITY_THRESHOLD : ℚ := 73/100

/-- `DEFAULT_LOCATION["radius_meters"]` (main.py line 61). -/
def RADIUS_METERS : ℚ := 100

/-- `DEEPFAKE_THRESHOLD` (main.py line 1768). -/
def DEEPFAKE_THRESHOLD : ℚ := 7/10

/-- The `error_type` of a rejected check-in (the typed rejections raised by
`attendance_checkin`; rejections whose HTTPException carries only a message
are tagged by their stage). -/
inductive CheckinError where
  | notStudent
  | noFaceId
  | invalidImage
  | livenessFailed
  | deepfakeDetected
  | faceInvalid
  | gpsInvalid
  | gpsInvalidMaxAttempts
  | alreadyCheckedIn
deriving DecidableEq, Repr

/-- The decision of one `attendance_checkin` request: success, or a typed
rejection; GPS rejections carry `attempt_number` and `remaining_attempts`
as in the response details (main.py lines 1881-1894 and 1944-1958). -/
inductive CheckinOutcome where
  | success
  | rejected (error_type : CheckinError) (attempt_number : Option Nat)
      (remaining_attempts : Option Int)
deriving DecidableEq, Repr

/-- The set of (student, class, date) keys that already have an attendance
record (the `attendance_collection` lookup of STEP 6 and the insert of
STEP 7). -/
abbrev AttendanceDb := GpsKey → Bool

/-- Inputs of one `attendance_checkin` request, with the external
collaborators abstracted to their results: `has_face_embedding` for the
STEP 0 user lookup, `image_valid` for the STEP 1 decode, `frame` for the
OpenCV pose/landmark extraction of STEP 2, `deepfake_confidence` for the
image-statistics heuristic of STEP 3 (`1 - deepfake_real_score`),
`embedding_similarity` for STEP 4 (`none` when `get_face_embedding`
returned None, otherwise the cosine similarity against the stored
template), and `gps_distance` for the geodesic distance of STEP 5. -/
structure CheckinInput where
  student_id : String
  class_id : String
  today : String
  latitude : ℚ
  longitude : ℚ
  timestamp : Nat
  role_is_student : Bool
  has_face_embedding : Bool
  image_valid : Bool
  frame : CheckinFrame
  deepfake_confidence : ℚ
  embedding_similarity : Option ℚ
  gps_distance : ℚ

/-- Result of one `attendance_checkin` request: the outcome, whether the
`get_face_embedding` collaborator was invoked, whether an attendance record
was inserted, and the new states of the GPS-invalid counter collection and
of the attendance collection. -/
structure CheckinResult where
  outcome : CheckinOutcome
  embed_called : Bool
  recorded : Bool
  gps_db : GpsDb
  attendance : AttendanceDb

/-- `attendance_checkin` (main.py lines 1532-1994), as a pure function of
the request inputs and the two shared collections.  Stage order is that of
the source: setup checks, image decode, liveness, deepfake, embedding
verification, GPS validation with attempt limiting, the
already-checked-in check, and finally recording.  Each rejection raises an
HTTPException in the source, which aborts every later stage; the teacher
notification and the audit-log write of the GPS-invalid branch are
fire-and-forget external effects that influence neither the outcome nor
the two collections modelled here. -/
def attendance_checkin (inp : CheckinInput) (db : GpsDb) (att : AttendanceDb) :
    CheckinResult :=
  let key : GpsKey := (inp.student_id, inp.class_id, inp.today)
  if inp.role_is_student = false then
    { outcome := .rejected .notStudent none none
      embed_called := false, recorded := false, gps_db := db, attendance := att }
  else if inp.has_face_embedding = false then
    { outcome := .rejected .noFaceId none none
      embed_called := false, recorded := false, gps_db := db, attendance := att }
  else if inp.image_valid = false then
    { outcome := .rejected .invalidImage none none
      embed_called := false, recorded := false, gps_db := db, attendance := att }
  else if inp.frame.face_detected = false then
    { outcome := .rejected .livenessFailed none none
      embed_called := false, recorded := false, gps_db := db, attendance := att }
  else
    let stage := checkin_liveness_data inp.frame
    if stage.final_score < CHECKIN_LIVENESS_THRESHOLD then
      { outcome := .rejected .livenessFailed none none
        embed_called := false, recorded := false, gps_db := db, attendance := att }
    else if DEEPFAKE_THRESHOLD < inp.deepfake_confidence then
      { outcome := .rejected .deepfakeDetected none none
        embed_called := false, recorded := false, gps_db := db, attendance := att }
    else
      match inp.embedding_similarity with
      | none =>
        { outcome := .rejected .faceInvalid none none
          embed_called := true, recorded := false, gps_db := db, attendance := att }
      | some face_similarity =>
        if face_similarity < SIMILARITY_THRESHOLD then
          { outcome := .rejected .faceInvalid none none
            embed_called := true, recorded := false, gps_db := db, attendance := att }
        else if ¬ (inp.gps_distance ≤ RADIUS_METERS) then
          let is_blocked := (check_gps_invalid_limit db key).1
          let current_count := (check_gps_invalid_limit db key).2.1
          if is_blocked then
            { outcome := .rejected .gpsInvalidMaxAttempts (some current_count) (some 0)
              embed_called := true, recorded := false, gps_db := db, attendance := att }
          else
            let detail : GpsAttemptDetail :=
              { timestamp := inp.timestamp
                latitude := inp.latitude
                longitude := inp.longitude
                distance_meters := inp.gps_distance
                face_similarity := face_similarity }
            let db2 := (increment_gps_invalid_attempt db key detail).1
            let new_count := (increment_gps_invalid_attempt db key detail).2
            let new_remaining : Int :=
              max 0 ((MAX_GPS_INVALID_ATTEMPTS : Int) - (new_count : Int))
            { outcome := .rejected .gpsInvalid (some new_count) (some new_remaining)
              embed_called := true, recorded := false, gps_db := db2, attendance := att }
        else if att key then
          { outcome := .rejected .alreadyCheckedIn none none
            embed_called := true, recorded := false, gps_db := db, attendance := att }
        else
          { outcome := .success
            embed_called := true, recorded := true, gps_db := db
            attendance := fun k2 => if k2 = key then true else att k2 }

/-- Result of `process_face_frame_for_diversity` on one enrollment frame as
consumed by `setup_faceid` (main.py lines 1171-1210): an exception or an
error entry discards the frame; otherwise it yields the pose angles and an
optional embedding (None when no embedding could be produced). -/
inductive FrameProcessResult where
  | err
  | ok (yaw pitch roll : ℚ) (embedding : Option (List ℚ))
deriving DecidableEq, Repr

/-- One surviving enrollment frame (main.py lines 1200-1208). -/
structure ValidFrame where
  embedding : List ℚ
  yaw : ℚ
  pitch : ℚ
  roll : ℚ
deriving DecidableEq, Repr

/-- The frontal validator constructed by `setup_faceid` (main.py lines
1145-1149). -/
def setupFrontalValidator : FrontalFaceValidator :=
  { yaw_tolerance := 15, pitch_tolerance := 15, roll_tolerance := 10 }

/-- The frame-filtering loop of `setup_faceid` (main.py lines 1171-1211):
discard errored frames, then non-frontal frames, then frames without an
embedding; survivors contribute their yaw/pitch to the diversity lists and
their data to `valid_frames` (the two collections are filled in the same
iteration, so the diversity lists are exactly the survivors' angles). -/
def collectValidFrames (frames : List FrameProcessResult) : List ValidFrame :=
  frames.foldl (fun acc f =>
    match f with
    | .err => acc
    | .ok yaw pitch roll embedding =>
      let (is_frontal, _) :=
        setupFrontalValidator.validate_frontal_face yaw pitch roll
      if is_frontal = false then acc
      else
        match embedding with
        | none => acc
        | some e => acc ++ [{ embedding := e, yaw := yaw, pitch := pitch, roll := roll }]) []

/-- Maximum of a list as computed by Python `max` (only used on nonempty
lists; 0 on the empty list mirrors the `if all_yaws else 0` guard). -/
def listMax : List ℚ → ℚ
  | [] => 0
  | x :: xs => xs.foldl max x

/-- Minimum of a list, as `listMax`. -/
def listMin : List ℚ → ℚ
  | [] => 0
  | x :: xs => xs.foldl min x

/-- `max(l) - min(l) if l else 0` (main.py lines 1222-1223). -/
def rangeOf (l : List ℚ) : ℚ :=
  if l = [] then 0 else listMax l - listMin l

/-- Componentwise sum of two embedding vectors. -/
def vecAdd (a b : List ℚ) : List ℚ := List.zipWith (· + ·) a b

/-- Componentwise mean of a list of embedding vectors (`np.mean(valid_embeddings,
axis=0)`, main.py line 1248). -/
def avgEmbedding : List (List ℚ) → List ℚ
  | [] => []
  | e :: es => (es.foldl vecAdd e).map (fun x => x / ((es.length : ℚ) + 1))

/-- The stored face template document written by `setup_faceid` (main.py
lines 1258-1283): it is replaced wholesale by one `$set`.  `data` is the
componentwise mean of the surviving embeddings; the source additionally
divides it by its Euclidean norm (`np.linalg.norm`, an external numeric
square root), a positive rescaling that affects neither which frames
contributed nor when the write happens. -/
structure FaceEmbeddingTemplate where
  data : List ℚ
  samples_count : Nat
  yaw_range : ℚ
  pitch_range : ℚ
deriving DecidableEq, Repr

/-- The typed failures of `setup_faceid`. -/
inductive SetupError where
  | tooFewImages
  | insufficientValidFrames
  | insufficientPoseDiversity
deriving DecidableEq, Repr

/-- `MIN_IMAGES` of `setup_faceid` (main.py line 1133, `min_images = 10`). -/
def SETUP_MIN_IMAGES : Nat := 10

/-- Minimum surviving frames (main.py line 1215, `len(valid_frames) < 8`). -/
def SETUP_MIN_VALID_FRAMES : Nat := 8

/-- Pose-diversity minimum in degrees (main.py line 1230, `0.5`). -/
def SETUP_DIVERSITY_MIN : ℚ := 1/2

/-- `setup_faceid` (main.py lines 1118-1283) as a pure function of the
per-frame processing results and the user's stored template: fewer than 10
images, fewer than 8 surviving frames, or a yaw or pitch range below 0.5°
raise an HTTPException before the single database `$set`, leaving the
stored template unchanged; on success the template is overwritten
wholesale with the freshly aggregated one. -/
def setup_faceid (images : List FrameProcessResult)
    (stored : Option FaceEmbeddingTemplate) :
    (SetupError ⊕ FaceEmbeddingTemplate) × Option FaceEmbeddingTemplate :=
  if images.length < SETUP_MIN_IMAGES then
    (.inl .tooFewImages, stored)
  else
    let valid := collectValidFrames images
    if valid.length < SETUP_MIN_VALID_FRAMES then
      (.inl .insufficientValidFrames, stored)
    else
      let yaw_range := rangeOf (valid.map (fun f => f.yaw))
      let pitch_range := rangeOf (valid.map (fun f => f.pitch))
      if yaw_range < SETUP_DIVERSITY_MIN ∨ pitch_range < SETUP_DIVERSITY_MIN then
        (.inl .insufficientPoseDiversity, stored)
      else
        let t : FaceEmbeddingTemplate :=
          { data := avgEmbedding (valid.map (fun f => f.embedding))
            samples_count := valid.length
            yaw_range := yaw_range
            pitch_range := pitch_range }
        (.inr t, some t)

/-- Two-argument arctangent as computed by `np.arctan2`, with values in
(-pi, pi]. -/
noncomputable def atan2 (y x : ℝ) : ℝ :=
  if 0 < x then Real.arctan (y / x)
  else if x < 0 ∧ 0 ≤ y then Real.arctan (y / x) + Real.pi
  else if x < 0 ∧ y < 0 then Real.arctan (y / x) - Real.pi
  else if x = 0 ∧ 0 < y then Real.pi / 2
  else if x = 0 ∧ y < 0 then -(Real.pi / 2)
  else 0

/-- Radians to degrees (`* 180 / np.pi`). -/
noncomputable def degrees (x : ℝ) : ℝ := x * 180 / Real.pi

/-- A 3x3 rotation matrix, as produced by the external `cv2.Rodrigues`
conversion of a rotation vector. -/
structure Mat3 where
  r00 : ℝ
  r01 : ℝ
  r02 : ℝ
  r10 : ℝ
  r11 : ℝ
  r12 : ℝ
  r20 : ℝ
  r21 : ℝ
  r22 : ℝ

/-- `rotation_vector_to_euler` (pose_detect.py lines 395-410), taking the
rotation matrix that `cv2.Rodrigues` (external) produces from the rotation
vector.  Returns (pitch, yaw, roll) in degrees, with the gimbal-lock
degenerate formula when `sqrt(R00^2 + R10^2) < 1e-6`.  No clamping is
applied on any path of this function. -/
noncomputable def rotation_vector_to_euler (R : Mat3) : ℝ × ℝ × ℝ :=
  let sy := Real.sqrt (R.r00 ^ 2 + R.r10 ^ 2)
  if sy < 1 / 1000000 then
    (degrees (atan2 (-R.r12) R.r11), degrees (atan2 (-R.r20) sy), degrees 0)
  else
    (degrees (atan2 R.r21 R.r22), degrees (atan2 (-R.r20) sy),
     degrees (atan2 R.r10 R.r00))

/-- `np.clip(x, lo, hi)` over the reals. -/
noncomputable def npClip (x lo hi : ℝ) : ℝ := min hi (max lo x)

/-- `np.sign` over the reals (-1, 0 or 1), which is `Real.sign`. -/
noncomputable def npSign (x : ℝ) : ℝ := Real.sign x

/-- The Euler extraction, orientation correction and clamping of the
successful PnP path of `detect_face_pose_and_angle` (pose_detect.py lines
281-306): raw yaw/pitch/roll from the rotation matrix, a 180-degree flip
when |yaw| > 150, a pitch double-flip clip when |pitch| > 80, and the final
clamps to [-90, 90], [-45, 45] and [-30, 30].  Returns (yaw, pitch, roll). -/
noncomputable def anglesFromRotation (R : Mat3) : ℝ × ℝ × ℝ :=
  let yaw0 := degrees (atan2 R.r20 R.r22)
  let pitch0 := degrees (atan2 (-R.r21) (Real.sqrt (R.r01 ^ 2 + R.r11 ^ 2)))
  let roll0 := degrees (atan2 R.r10 R.r00)
  let yaw1 := if |yaw0| > 150 then yaw0 - npSign yaw0 * 180 else yaw0
  let pitch1 := if |yaw0| > 150 then -pitch0 else pitch0
  let roll1 := if |yaw0| > 150 then -roll0 else roll0
  let pitch2 := if |pitch1| > 80 then npClip (pitch1 - npSign pitch1 * 180) (-90) 90
    else pitch1
  (npClip yaw1 (-90) 90, npClip pitch2 (-45) 45, npClip roll1 (-30) 30)

/-- The control-flow outcome of `detect_face_pose_and_angle` (pose_detect.py
lines 154-325), abstracting the external OpenCV detectors: which branch the
call takes, and on the successful PnP branch the rotation matrix produced
by the solver. -/
inductive PoseDetectOutcome where
  | imageInvalid
  | noFace
  | dnnFallback
  | resizedFallback
  | insufficientLandmarks
  | pnpFailed
  | internalError
  | solved (R : Mat3)

/-- The angle triple (yaw, pitch, roll) of the `angle_info` returned by
`detect_face_pose_and_angle` on each branch: `none` when the dictionary
has no angles (invalid image or no face, lines 164 and 233), zeros on the
DNN fallback (line 220), resized fallback (line 230), missing-landmark
(lines 244 and 252), failed-PnP (line 279) and exception (line 325)
branches, and the corrected, clamped angles on the successful PnP branch
(lines 283-321). -/
noncomputable def detect_face_pose_and_angle : PoseDetectOutcome → Option (ℝ × ℝ × ℝ)
  | .imageInvalid => none
  | .noFace => none
  | .dnnFallback => some (0, 0, 0)
  | .resizedFallback => some (0, 0, 0)
  | .insufficientLandmarks => some (0, 0, 0)
  | .pnpFailed => some (0, 0, 0)
  | .internalError => some (0, 0, 0)
  | .solved R => some (anglesFromRotation R)

/-- The GPS-invalid collection with no documents. -/
def emptyGpsDb : GpsDb := fun _ => none

/-- The attendance collection with no records for today. -/
def emptyAttendance : AttendanceDb := fun _ => false

/-- A concrete frame with a detected, perfectly frontal face whose eyes are
open (EAR 0.3) and mouth closed (MAR 0.3). -/
def openFrame : CheckinFrame :=
  { face_detected := true, yaw := 0, pitch := 0, roll := 0
    landmarks := some { avg_ear := 3/10, mar := 3/10 } }

/-- A concrete frame on which face detection failed. -/
def noFaceFrame : CheckinFrame :=
  { face_detected := false, yaw := 0, pitch := 0, roll := 0, landmarks := none }

/-- A concrete check-in request that passes every stage: student role, Face
ID set up, valid image, detected frontal face, low deepfake confidence,
similarity 0.9 and GPS distance 5 m. -/
def passInput : CheckinInput :=
  { student_id := "sv1", class_id := "lop1", today := "2025-01-01"
    latitude := 16, longitude := 108, timestamp := 0
    role_is_student := true, has_face_embedding := true, image_valid := true
    frame := openFrame, deepfake_confidence := 0
    embedding_similarity := some (9/10), gps_distance := 5 }

/-- The same request from 500 m away (GPS out of the 100 m radius). -/
def farInput : CheckinInput := { passInput with gps_distance := 500 }

/-- The same request with a frame on which no face was detected. -/
def noFaceInput : CheckinInput := { passInput with frame := noFaceFrame }

/-- A concrete stored GPS-invalid attempt. -/
def sampleDetail : GpsAttemptDetail :=
  { timestamp := 0, latitude := 16, longitude := 108
    distance_meters := 500, face_similarity := 9/10 }

/-- A GPS-invalid collection in which `passInput`'s key has already
reached the maximum of 2 invalid attempts. -/
def blockedGpsDb : GpsDb := fun k =>
  if k = ("sv1", "lop1", "2025-01-01") then
    some { attempt_count := 2, attempts := [sampleDetail, sampleDetail]
           last_attempt_time := 0 }
  else none

/-- A request satisfies this when every stage before GPS validation passes:
student role, Face ID set up, decodable image, detected face (the liveness
score branch is settled by `checkin_final_score_ge_threshold`), deepfake
confidence at most the threshold, and an embedding similarity at least the
threshold. -/
def PassesToGpsStage (inp : CheckinInput) : Prop :=
  inp.role_is_student = true ∧ inp.has_face_embedding = true ∧
  inp.image_valid = true ∧ inp.frame.face_detected = true ∧
  inp.deepfake_confidence ≤ DEEPFAKE_THRESHOLD ∧
  ∃ s, inp.embedding_similarity = some s ∧ SIMILARITY_THRESHOLD ≤ s

/-- The check-in liveness stage fails on this request: no face was
detected, or the stage's final score is below
`CHECKIN_LIVENESS_THRESHOLD` (the two rejection conditions of main.py
lines 1630-1638 and 1687-1701). -/
def LivenessStageFails (inp : CheckinInput) : Prop :=
  inp.frame.face_detected = false ∨
  (checkin_liveness_data inp.frame).final_score < CHECKIN_LIVENESS_THRESHOLD

/-- Well-formedness of the GPS-invalid collection: every document's
`attempt_count` equals the length of its `attempts` array. -/
def GpsDbWellFormed (db : GpsDb) : Prop :=
  ∀ k r, db k = some r → r.attempt_count = r.attempts.length

/-- Ten enrollment frames that all fail per-frame processing. -/
def tenErrFrames : List FrameProcessResult := List.replicate 10 FrameProcessResult.err

/-- A concrete stored enrollment template. -/
def sampleTemplate : FaceEmbeddingTemplate :=
  { data := [1], samples_count := 1, yaw_range := 1, pitch_range := 1 }

/-- The rotation matrix of a 180-degree rotation about the x-axis (a face
captured upside down). -/
noncomputable def pitchFlipMatrix : Mat3 :=
  { r00 := 1, r01 := 0, r02 := 0
    r10 := 0, r11 := -1, r12 := 0
    r20 := 0, r21 := 0, r22 := -1 }

lemma clip01_nonneg (x : ℚ) : 0 ≤ clip01 x := le_max_left _ _

lemma clip01_le_one (x : ℚ) : clip01 x ≤ 1 :=
  max_le (by norm_num) (min_le_left _ _)

lemma clip01_mono {a b : ℚ} (h : a ≤ b) : clip01 a ≤ clip01 b :=
  max_le_max le_rfl (min_le_min le_rfl h)

lemma normCount_mono (maxi : Nat) {b b2 : Nat} (h : b ≤ b2) :
    min 1 ((b : ℚ) / (maxi : ℚ)) ≤ min 1 ((b2 : ℚ) / (maxi : ℚ)) := by
  rcases Nat.eq_zero_or_pos maxi with h0 | h0
  · subst h0
    norm_num
  · refine min_le_min le_rfl ?_
    have hc : (0 : ℚ) < (maxi : ℚ) := by exact_mod_cast h0
    exact (div_le_div_iff_of_pos_right hc).mpr (by exact_mod_cast h)

lemma calculate_liveness_score_range (c : LivenessScoreCalculator)
    (b m h : Nat) : 0 ≤ c.calculate_liveness_score b m h ∧
      c.calculate_liveness_score b m h ≤ 1 := by
  unfold LivenessScoreCalculator.calculate_liveness_score
  split_ifs
  · norm_num
  · exact ⟨clip01_nonneg _, clip01_le_one _⟩

lemma calculate_mono_blink (c : LivenessScoreCalculator)
    (hw : 0 ≤ c.blink_weight) {b b2 : Nat} (hb : b ≤ b2) (m h : Nat) :
    c.calculate_liveness_score b m h ≤ c.calculate_liveness_score b2 m h := by
  unfold LivenessScoreCalculator.calculate_liveness_score
  split_ifs
  · exact le_rfl
  · dsimp only
    refine clip01_mono ?_
    have hmin := normCount_mono c.max_indicators hb
    have := mul_le_mul_of_nonneg_left hmin hw
    linarith

lemma calculate_mono_mouth (c : LivenessScoreCalculator)
    (hw : 0 ≤ c.mouth_weight) (b : Nat) {m m2 : Nat} (hm : m ≤ m2) (h : Nat) :
    c.calculate_liveness_score b m h ≤ c.calculate_liveness_score b m2 h := by
  unfold LivenessScoreCalculator.calculate_liveness_score
  split_ifs
  · exact le_rfl
  · dsimp only
    refine clip01_mono ?_
    have hmin := normCount_mono c.max_indicators hm
    have := mul_le_mul_of_nonneg_left hmin hw
    linarith

lemma calculate_mono_head (c : LivenessScoreCalculator)
    (hw : 0 ≤ c.head_movement_weight) (b m : Nat) {h h2 : Nat} (hh : h ≤ h2) :
    c.calculate_liveness_score b m h ≤ c.calculate_liveness_score b m h2 := by
  unfold LivenessScoreCalculator.calculate_liveness_score
  split_ifs
  · exact le_rfl
  · dsimp only
    refine clip01_mono ?_
    have hmin := normCount_mono c.max_indicators hh
    have := mul_le_mul_of_nonneg_left hmin hw
    linarith

lemma norm_saturate (maxi : Nat) {b : Nat} (hb : maxi ≤ b) :
    min 1 ((b : ℚ) / (maxi : ℚ)) = min 1 ((maxi : ℚ) / (maxi : ℚ)) := by
  rcases Nat.eq_zero_or_pos maxi with h0 | h0
  · subst h0
    norm_num
  · have hc : (0 : ℚ) < (maxi : ℚ) := by exact_mod_cast h0
    rw [div_self (ne_of_gt hc)]
    have h1 : (1 : ℚ) ≤ (b : ℚ) / (maxi : ℚ) :=
      (one_le_div hc).mpr (by exact_mod_cast hb)
    rw [min_eq_left h1, min_eq_left le_rfl]

/-- C5: feeding the `EyeBlinkDetector` with threshold 0.2 the averaged EAR
sequence [0.3, 0.3, 0.1, 0.1, 0.3, 0.3, 0.1, 0.3] yields `blink_count = 2`;
moreover each step increments the counter exactly on an open-to-closed
transition (EAR below threshold while `in_blink` is false), and the flag
after a step is exactly "EAR below threshold", so a closed-to-open
transition only clears the flag and staying below the threshold never
re-counts. -/
theorem blink_hysteresis_C5 :
    (runBlinkSequence (EyeBlinkDetector.init (1/5) 5)
      [3/10, 3/10, 1/10, 1/10, 3/10, 3/10, 1/10, 3/10]).blink_count = 2 ∧
    ∀ (d : EyeBlinkDetector) (e : ℚ),
      (d.detect_blink e).1.blink_count =
        d.blink_count + (if e < d.threshold ∧ d.in_blink = false then 1 else 0) ∧
      (d.detect_blink e).1.in_blink = decide (e < d.threshold) := by
  constructor
  · norm_num [runBlinkSequence, EyeBlinkDetector.init, EyeBlinkDetector.detect_blink,
      dequePush]
  · intro d e
    unfold EyeBlinkDetector.detect_blink
    dsimp only
    split_ifs with h1 h2
    · simp [h1.1, h1.2]
    · have hne : ¬ e < d.threshold := not_lt.mpr h2.1
      simp [hne, h2.2]
    · by_cases he : e < d.threshold
      · have hb : d.in_blink = true := by
          cases hbv : d.in_blink
          · exact absurd ⟨he, hbv⟩ h1
          · rfl
        simp [he, hb]
      · have hb : d.in_blink = false := by
          cases hbv : d.in_blink
          · rfl
          · exact absurd ⟨not_lt.mp he, hbv⟩ h2
        simp [he, hb]

/-- C10: for each of the three indicator detectors, processing one frame
never decreases the stored count, and `reset` returns the count to zero
(no processing step can lower or clear a count; only reset does). -/
theorem detector_counts_monotone_C10 :
    (∀ (d : EyeBlinkDetector) (e : ℚ),
      d.blink_count ≤ (d.detect_blink e).1.blink_count) ∧
    (∀ d : EyeBlinkDetector, d.reset.blink_count = 0) ∧
    (∀ (d : MouthMovementDetector) (x : ℚ),
      d.mouth_movement_count ≤ (d.detect_mouth_movement x).1.mouth_movement_count) ∧
    (∀ d : MouthMovementDetector, d.reset.mouth_movement_count = 0) ∧
    (∀ (t : HeadMovementTracker) (y p r : ℚ),
      t.head_movement_count ≤ (t.track_head_movement y p r).1.head_movement_count) ∧
    (∀ t : HeadMovementTracker, t.reset.head_movement_count = 0) := by
  refine ⟨?_, fun d => rfl, ?_, fun d => rfl, ?_, fun t => rfl⟩
  · intro d e
    unfold EyeBlinkDetector.detect_blink
    dsimp only
    split_ifs <;> simp
  · intro d x
    unfold MouthMovementDetector.detect_mouth_movement
    dsimp only
    split_ifs <;> simp
  · intro t y p r
    unfold HeadMovementTracker.track_head_movement
    dsimp only
    split_ifs with h
    · simp
    · cases t.last_significant_pose
      · simp
      · dsimp only
        split_ifs <;> simp

/-- C6 counterexample: the claim quantifies over every fixed weight triple,
but the constructor accepts the triple (1, -0.5, 0.5) unchanged (it sums to
exactly 1), and for it `calculate_liveness_score` strictly decreases when
the mouth count rises from 0 to 10 with the other counts fixed — so the
score is not monotonically non-decreasing in each count for every weight
triple. -/
theorem score_monotonicity_counterexample_C6 :
    LivenessScoreCalculator.init 1 (-(1/2)) (1/2) (3/5) 10 =
      some { blink_weight := 1, mouth_weight := -(1/2),
             head_movement_weight := 1/2, threshold := 3/5,
             max_indicators := 10 } ∧
    LivenessScoreCalculator.calculate_liveness_score
      { blink_weight := 1, mouth_weight := -(1/2), head_movement_weight := 1/2,
        threshold := 3/5, max_indicators := 10 } 10 10 0 <
    LivenessScoreCalculator.calculate_liveness_score
      { blink_weight := 1, mouth_weight := -(1/2), head_movement_weight := 1/2,
        threshold := 3/5, max_indicators := 10 } 10 0 0 := by
  constructor
  · norm_num [LivenessScoreCalculator.init]
  · norm_num [LivenessScoreCalculator.calculate_liveness_score, clip01]

/-- C6 amended: for every calculator whose three weights are nonnegative,
`calculate_liveness_score` is monotonically non-decreasing in each of the
three counts separately; for every calculator (any weights) the score lies
in [0, 1]; and each count enters only through the normalization
`min(1, count / max_indicators)`, so counts at or above `max_indicators`
saturate (while `max_indicators = 0` makes the score the constant 0, the
caught ZeroDivisionError). -/
theorem score_monotone_amended_C6 :
    ∀ (c : LivenessScoreCalculator) (b m h : Nat),
      (0 ≤ c.blink_weight → 0 ≤ c.mouth_weight → 0 ≤ c.head_movement_weight →
        (∀ b2, b ≤ b2 →
          c.calculate_liveness_score b m h ≤ c.calculate_liveness_score b2 m h) ∧
        (∀ m2, m ≤ m2 →
          c.calculate_liveness_score b m h ≤ c.calculate_liveness_score b m2 h) ∧
        (∀ h2, h ≤ h2 →
          c.calculate_liveness_score b m h ≤ c.calculate_liveness_score b m h2)) ∧
      (0 ≤ c.calculate_liveness_score b m h ∧
        c.calculate_liveness_score b m h ≤ 1) ∧
      (c.max_indicators ≤ b →
        c.calculate_liveness_score b m h =
          c.calculate_liveness_score c.max_indicators m h) ∧
      (c.max_indicators ≤ m →
        c.calculate_liveness_score b m h =
          c.calculate_liveness_score b c.max_indicators h) ∧
      (c.max_indicators ≤ h →
        c.calculate_liveness_score b m h =
          c.calculate_liveness_score b m c.max_indicators) := by
  intro c b m h
  refine ⟨fun hb hm hh => ⟨fun b2 e => calculate_mono_blink c hb e m h,
    fun m2 e => calculate_mono_mouth c hm b e h,
    fun h2 e => calculate_mono_head c hh b m e⟩,
    calculate_liveness_score_range c b m h, ?_, ?_, ?_⟩
  · intro hsat
    unfold LivenessScoreCalculator.calculate_liveness_score
    split_ifs
    · rfl
    · dsimp only
      rw [norm_saturate c.max_indicators hsat]
  · intro hsat
    unfold LivenessScoreCalculator.calculate_liveness_score
    split_ifs
    · rfl
    · dsimp only
      rw [norm_saturate c.max_indicators hsat]
  · intro hsat
    unfold LivenessScoreCalculator.calculate_liveness_score
    split_ifs
    · rfl
    · dsimp only
      rw [norm_saturate c.max_indicators hsat]

/-- C6 amended witness: the amended theorem applied to the default
calculator (weights 0.4 / 0.3 / 0.3, max_indicators 10) at counts 1, 2, 3,
with the hypotheses discharged concretely. -/
theorem score_monotone_amended_C6_witness :
    defaultScoreCalculator.calculate_liveness_score 1 2 3 ≤
      defaultScoreCalculator.calculate_liveness_score 4 2 3 ∧
    0 ≤ defaultScoreCalculator.calculate_liveness_score 1 2 3 ∧
    defaultScoreCalculator.calculate_liveness_score 1 2 3 ≤ 1 ∧
    defaultScoreCalculator.calculate_liveness_score 12 2 3 =
      defaultScoreCalculator.calculate_liveness_score 10 2 3 := by
  have h := score_monotone_amended_C6 defaultScoreCalculator 1 2 3
  have h12 := score_monotone_amended_C6 defaultScoreCalculator 12 2 3
  refine ⟨(h.1 (by norm_num [defaultScoreCalculator])
      (by norm_num [defaultScoreCalculator])
      (by norm_num [defaultScoreCalculator])).1 4 (by norm_num),
    h.2.1.1, h.2.1.2, ?_⟩
  exact h12.2.2.1 (by norm_num [defaultScoreCalculator])

/-- C7: whenever construction succeeds (a zero weight sum raises
ZeroDivisionError instead), a weight triple whose sum differs from 1 by
more than 0.01 is proportionally renormalized — each weight is divided by
the sum, so the stored weights sum to exactly 1 — and every constructed
calculator returns a score in [0, 1] for all nonnegative integer counts. -/
theorem weight_renormalization_C7 :
    ∀ (bw mw hw thr : ℚ) (maxi : Nat) (c : LivenessScoreCalculator),
      LivenessScoreCalculator.init bw mw hw thr maxi = some c →
      (|bw + mw + hw - 1| > 1/100 →
        c.blink_weight + c.mouth_weight + c.head_movement_weight = 1 ∧
        c.blink_weight = bw / (bw + mw + hw) ∧
        c.mouth_weight = mw / (bw + mw + hw) ∧
        c.head_movement_weight = hw / (bw + mw + hw)) ∧
      ∀ b m h : Nat, 0 ≤ c.calculate_liveness_score b m h ∧
        c.calculate_liveness_score b m h ≤ 1 := by
  intro bw mw hw thr maxi c hinit
  refine ⟨?_, fun b m h => calculate_liveness_score_range c b m h⟩
  intro hfar
  unfold LivenessScoreCalculator.init at hinit
  rw [if_pos hfar] at hinit
  by_cases hzero : bw + mw + hw = 0
  · rw [if_pos hzero] at hinit
    exact absurd hinit (by simp)
  · rw [if_neg hzero] at hinit
    have hc := (Option.some_inj.mp hinit).symm
    subst hc
    refine ⟨?_, rfl, rfl, rfl⟩
    dsimp only
    rw [div_add_div_same, div_add_div_same, div_self hzero]

/-- C7 witness: the theorem applied to the triple (0.5, 0.5, 0.5) of the
claim, whose sum 1.5 is validated and renormalized to (1/3, 1/3, 1/3). -/
theorem weight_renormalization_C7_witness :
    ({ blink_weight := 1/3, mouth_weight := 1/3, head_movement_weight := 1/3,
       threshold := 3/5, max_indicators := 10 } :
        LivenessScoreCalculator).blink_weight +
      ({ blink_weight := 1/3, mouth_weight := 1/3, head_movement_weight := 1/3,
         threshold := 3/5, max_indicators := 10 } :
          LivenessScoreCalculator).mouth_weight +
      ({ blink_weight := 1/3, mouth_weight := 1/3, head_movement_weight := 1/3,
         threshold := 3/5, max_indicators := 10 } :
          LivenessScoreCalculator).head_movement_weight = 1 ∧
    0 ≤ ({ blink_weight := 1/3, mouth_weight := 1/3, head_movement_weight := 1/3,
           threshold := 3/5, max_indicators := 10 } :
            LivenessScoreCalculator).calculate_liveness_score 7 8 9 ∧
    ({ blink_weight := 1/3, mouth_weight := 1/3, head_movement_weight := 1/3,
       threshold := 3/5, max_indicators := 10 } :
        LivenessScoreCalculator).calculate_liveness_score 7 8 9 ≤ 1 := by
  have h := weight_renormalization_C7 (1/2) (1/2) (1/2) (3/5) 10
    { blink_weight := 1/3, mouth_weight := 1/3, head_movement_weight := 1/3,
      threshold := 3/5, max_indicators := 10 }
    (by
      unfold LivenessScoreCalculator.init
      rw [if_pos (by rw [abs_of_nonneg (by norm_num : (0:ℚ) ≤ 1/2 + 1/2 + 1/2 - 1)]; norm_num)]
      rw [if_neg (by norm_num : ¬ ((1:ℚ)/2 + 1/2 + 1/2 = 0))]
      norm_num)
  have hsum := (h.1 (by
    rw [abs_of_nonneg (by norm_num : (0:ℚ) ≤ 1/2 + 1/2 + 1/2 - 1)]; norm_num)).1
  have hrange := h.2 7 8 9
  refine ⟨?_, hrange.1, hrange.2⟩
  calc ({ blink_weight := 1/3, mouth_weight := 1/3, head_movement_weight := 1/3,
          threshold := 3/5, max_indicators := 10 } :
           LivenessScoreCalculator).blink_weight +
        ({ blink_weight := 1/3, mouth_weight := 1/3, head_movement_weight := 1/3,
           threshold := 3/5, max_indicators := 10 } :
            LivenessScoreCalculator).mouth_weight +
        ({ blink_weight := 1/3, mouth_weight := 1/3, head_movement_weight := 1/3,
           threshold := 3/5, max_indicators := 10 } :
            LivenessScoreCalculator).head_movement_weight = 1 := hsum

lemma checkin_final_score_ge_threshold (frame : CheckinFrame) :
    CHECKIN_LIVENESS_THRESHOLD ≤ (checkin_liveness_data frame).final_score := by
  unfold checkin_liveness_data CHECKIN_LIVENESS_THRESHOLD
  dsimp only
  refine le_min (by norm_num) ?_
  have hb : (0:ℚ) ≤ (if ((FrontalFaceValidator.mk 20 20 15).validate_frontal_face
      frame.yaw frame.pitch frame.roll).1 = true then 3/10 else 0) := by
    split_ifs <;> norm_num
  have hq : (0:ℚ) ≤ 1/5 * max 0 (1 - (|frame.yaw| + |frame.pitch|) / 60) := by
    positivity
  linarith

lemma increment_new_count (db : GpsDb) (k : GpsKey) (detail : GpsAttemptDetail) :
    (increment_gps_invalid_attempt db k detail).2 =
      get_gps_invalid_attempt_count db k + 1 := by
  unfold increment_gps_invalid_attempt get_gps_invalid_attempt_count
  dsimp only
  rw [if_pos rfl]
  cases db k <;> rfl

lemma increment_count_self (db : GpsDb) (k : GpsKey) (detail : GpsAttemptDetail) :
    get_gps_invalid_attempt_count (increment_gps_invalid_attempt db k detail).1 k =
      get_gps_invalid_attempt_count db k + 1 := by
  unfold increment_gps_invalid_attempt get_gps_invalid_attempt_count
  dsimp only
  rw [if_pos rfl]
  cases db k <;> rfl

lemma increment_preserves_wf (db : GpsDb) (k : GpsKey) (detail : GpsAttemptDetail)
    (hwf : GpsDbWellFormed db) :
    GpsDbWellFormed (increment_gps_invalid_attempt db k detail).1 := by
  intro k2 r hr
  unfold increment_gps_invalid_attempt at hr
  dsimp only at hr
  by_cases hk : k2 = k
  · rw [if_pos hk] at hr
    cases hdb : db k with
    | none =>
      rw [hdb] at hr
      cases hr
      simp
    | some r0 =>
      rw [hdb] at hr
      cases hr
      have := hwf k r0 hdb
      simp [this]
  · rw [if_neg hk] at hr
    exact hwf k2 r hr

lemma checkin_gps_blocked (inp : CheckinInput) (db : GpsDb) (att : AttendanceDb)
    (hpass : PassesToGpsStage inp)
    (hfar : ¬ inp.gps_distance ≤ RADIUS_METERS)
    (hblocked : MAX_GPS_INVALID_ATTEMPTS ≤
      get_gps_invalid_attempt_count db (inp.student_id, inp.class_id, inp.today)) :
    attendance_checkin inp db att =
      { outcome := CheckinOutcome.rejected .gpsInvalidMaxAttempts
          (some (get_gps_invalid_attempt_count db
            (inp.student_id, inp.class_id, inp.today))) (some 0)
        embed_called := true, recorded := false, gps_db := db, attendance := att } := by
  obtain ⟨h1, h2, h3, h4, h5, s, hs, hsge⟩ := hpass
  have hbl : (check_gps_invalid_limit db
      (inp.student_id, inp.class_id, inp.today)).1 = true := by
    unfold check_gps_invalid_limit
    exact decide_eq_true hblocked
  unfold attendance_checkin
  dsimp only
  rw [if_neg (by simp [h1]), if_neg (by simp [h2]), if_neg (by simp [h3]),
    if_neg (by simp [h4])]
  rw [if_neg (not_lt.mpr (checkin_final_score_ge_threshold inp.frame))]
  rw [if_neg (not_lt.mpr h5)]
  rw [hs]
  dsimp only
  rw [if_neg (not_lt.mpr hsge)]
  rw [if_pos hfar]
  rw [if_pos hbl]
  unfold check_gps_invalid_limit
  rfl

lemma checkin_gps_increment (inp : CheckinInput) (db : GpsDb) (att : AttendanceDb)
    (hpass : PassesToGpsStage inp)
    (hfar : ¬ inp.gps_distance ≤ RADIUS_METERS)
    (hopen : get_gps_invalid_attempt_count db
        (inp.student_id, inp.class_id, inp.today) < MAX_GPS_INVALID_ATTEMPTS) :
    (attendance_checkin inp db att).outcome = CheckinOutcome.rejected .gpsInvalid
      (some (get_gps_invalid_attempt_count db
        (inp.student_id, inp.class_id, inp.today) + 1))
      (some (max 0 ((MAX_GPS_INVALID_ATTEMPTS : Int) -
        ((get_gps_invalid_attempt_count db
          (inp.student_id, inp.class_id, inp.today) + 1 : Nat) : Int)))) ∧
    get_gps_invalid_attempt_count (attendance_checkin inp db att).gps_db
        (inp.student_id, inp.class_id, inp.today) =
      get_gps_invalid_attempt_count db (inp.student_id, inp.class_id, inp.today) + 1 ∧
    (GpsDbWellFormed db → GpsDbWellFormed (attendance_checkin inp db att).gps_db) ∧
    (attendance_checkin inp db att).recorded = false := by
  obtain ⟨h1, h2, h3, h4, h5, s, hs, hsge⟩ := hpass
  have hbl : (check_gps_invalid_limit db
      (inp.student_id, inp.class_id, inp.today)).1 = false := by
    unfold check_gps_invalid_limit
    exact decide_eq_false (not_le.mpr hopen)
  have heq : attendance_checkin inp db att =
      { outcome := CheckinOutcome.rejected .gpsInvalid
          (some ((increment_gps_invalid_attempt db
            (inp.student_id, inp.class_id, inp.today)
            { timestamp := inp.timestamp, latitude := inp.latitude
              longitude := inp.longitude, distance_meters := inp.gps_distance
              face_similarity := s }).2))
          (some (max 0 ((MAX_GPS_INVALID_ATTEMPTS : Int) -
            (((increment_gps_invalid_attempt db
              (inp.student_id, inp.class_id, inp.today)
              { timestamp := inp.timestamp, latitude := inp.latitude
                longitude := inp.longitude, distance_meters := inp.gps_distance
                face_similarity := s }).2 : Nat) : Int))))
        embed_called := true, recorded := false
        gps_db := (increment_gps_invalid_attempt db
          (inp.student_id, inp.class_id, inp.today)
          { timestamp := inp.timestamp, latitude := inp.latitude
            longitude := inp.longitude, distance_meters := inp.gps_distance
            face_similarity := s }).1
        attendance := att } := by
    unfold attendance_checkin
    dsimp only
    rw [if_neg (by simp [h1]), if_neg (by simp [h2]), if_neg (by simp [h3]),
      if_neg (by simp [h4])]
    rw [if_neg (not_lt.mpr (checkin_final_score_ge_threshold inp.frame))]
    rw [if_neg (not_lt.mpr h5)]
    rw [hs]
    dsimp only
    rw [if_neg (not_lt.mpr hsge)]
    rw [if_pos hfar]
    rw [if_neg (by rw [hbl]; simp)]
  rw [heq]
  refine ⟨?_, ?_, ?_, rfl⟩
  · dsimp only
    rw [increment_new_count]
  · dsimp only
    exact increment_count_self db (inp.student_id, inp.class_id, inp.today) _
  · intro hwf
    exact increment_preserves_wf db (inp.student_id, inp.class_id, inp.today) _ hwf

/-- C1: with MAX_GPS_INVALID_ATTEMPTS = 2, three consecutive check-in
attempts for the same (student, class, date) key that pass every earlier
stage but carry an out-of-range GPS location behave as: attempt 1 is
rejected as gps_invalid with attempt_number 1 and remaining_attempts 1,
attempt 2 as gps_invalid with attempt_number 2 and remaining_attempts 0,
and attempt 3 as gps_invalid_max_attempts while leaving the stored counter
untouched at 2 (the pre-increment count is consulted before any
increment). -/
theorem gps_attempt_limiting_C1 :
    ∀ (inp1 inp2 inp3 : CheckinInput) (db : GpsDb) (att : AttendanceDb)
      (k : GpsKey),
      (inp1.student_id, inp1.class_id, inp1.today) = k →
      (inp2.student_id, inp2.class_id, inp2.today) = k →
      (inp3.student_id, inp3.class_id, inp3.today) = k →
      PassesToGpsStage inp1 → ¬ inp1.gps_distance ≤ RADIUS_METERS →
      PassesToGpsStage inp2 → ¬ inp2.gps_distance ≤ RADIUS_METERS →
      PassesToGpsStage inp3 → ¬ inp3.gps_distance ≤ RADIUS_METERS →
      db k = none →
      (attendance_checkin inp1 db att).outcome =
        CheckinOutcome.rejected .gpsInvalid (some 1) (some 1) ∧
      (attendance_checkin inp2 (attendance_checkin inp1 db att).gps_db att).outcome =
        CheckinOutcome.rejected .gpsInvalid (some 2) (some 0) ∧
      (attendance_checkin inp3
          (attendance_checkin inp2 (attendance_checkin inp1 db att).gps_db att).gps_db
          att).outcome =
        CheckinOutcome.rejected .gpsInvalidMaxAttempts (some 2) (some 0) ∧
      (attendance_checkin inp3
          (attendance_checkin inp2 (attendance_checkin inp1 db att).gps_db att).gps_db
          att).gps_db =
        (attendance_checkin inp2 (attendance_checkin inp1 db att).gps_db att).gps_db ∧
      get_gps_invalid_attempt_count
          (attendance_checkin inp2 (attendance_checkin inp1 db att).gps_db att).gps_db
          k = 2 := by
  intro inp1 inp2 inp3 db att k hk1 hk2 hk3 hp1 hf1 hp2 hf2 hp3 hf3 hdb
  subst hk1
  have hc0 : get_gps_invalid_attempt_count db
      (inp1.student_id, inp1.class_id, inp1.today) = 0 := by
    unfold get_gps_invalid_attempt_count
    rw [hdb]
  have h1 := checkin_gps_increment inp1 db att hp1 hf1
    (by rw [hc0]; norm_num [MAX_GPS_INVALID_ATTEMPTS])
  rw [hc0] at h1
  have hcount1 : get_gps_invalid_attempt_count
      (attendance_checkin inp1 db att).gps_db
      (inp1.student_id, inp1.class_id, inp1.today) = 1 := by
    rw [h1.2.1]
  have h2 := checkin_gps_increment inp2 (attendance_checkin inp1 db att).gps_db att
    hp2 hf2 (by rw [hk2, hcount1]; norm_num [MAX_GPS_INVALID_ATTEMPTS])
  rw [hk2, hcount1] at h2
  have hcount2 : get_gps_invalid_attempt_count
      (attendance_checkin inp2 (attendance_checkin inp1 db att).gps_db att).gps_db
      (inp1.student_id, inp1.class_id, inp1.today) = 2 := by
    rw [h2.2.1]
  have h3 := checkin_gps_blocked inp3
    (attendance_checkin inp2 (attendance_checkin inp1 db att).gps_db att).gps_db att
    hp3 hf3 (by rw [hk3, hcount2]; norm_num [MAX_GPS_INVALID_ATTEMPTS])
  rw [hk3, hcount2] at h3
  refine ⟨?_, ?_, ?_, ?_, hcount2⟩
  · rw [h1.1]
    norm_num [MAX_GPS_INVALID_ATTEMPTS]
  · rw [h2.1]
    norm_num [MAX_GPS_INVALID_ATTEMPTS]
  · rw [h3]
  · rw [h3]

/-- C1 witness: the limiting run on concrete data — three check-ins from
500 m away for the key ("sv1", "lop1", "2025-01-01") starting from an
empty counter collection. -/
theorem gps_attempt_limiting_C1_witness :
    (attendance_checkin farInput emptyGpsDb emptyAttendance).outcome =
      CheckinOutcome.rejected .gpsInvalid (some 1) (some 1) ∧
    (attendance_checkin farInput
        (attendance_checkin farInput emptyGpsDb emptyAttendance).gps_db
        emptyAttendance).outcome =
      CheckinOutcome.rejected .gpsInvalid (some 2) (some 0) ∧
    (attendance_checkin farInput
        (attendance_checkin farInput
          (attendance_checkin farInput emptyGpsDb emptyAttendance).gps_db
          emptyAttendance).gps_db
        emptyAttendance).outcome =
      CheckinOutcome.rejected .gpsInvalidMaxAttempts (some 2) (some 0) := by
  have hpass : PassesToGpsStage farInput := by
    refine ⟨rfl, rfl, rfl, rfl, ?_, 9/10, rfl, ?_⟩ <;>
      norm_num [farInput, passInput, DEEPFAKE_THRESHOLD, SIMILARITY_THRESHOLD]
  have hfar : ¬ farInput.gps_distance ≤ RADIUS_METERS := by
    norm_num [farInput, passInput, RADIUS_METERS]
  have h := gps_attempt_limiting_C1 farInput farInput farInput emptyGpsDb
    emptyAttendance ("sv1", "lop1", "2025-01-01") rfl rfl rfl
    hpass hfar hpass hfar hpass hfar rfl
  exact ⟨h.1, h.2.1, h.2.2.1⟩

/-- C2 counterexample: with the stored counter already at the maximum (2)
for the key ("sv1", "lop1", "2025-01-01"), a further check-in attempt for
that key whose GPS location is valid (5 m) is not blocked: the pipeline
records attendance and succeeds, because the counter is only consulted
when GPS validation fails — refuting "once attempt_count ≥ MAX, every
further check-in attempt for that key on that date is blocked regardless
of the outcome of any other stage". -/
theorem gps_counter_counterexample_C2 :
    get_gps_invalid_attempt_count blockedGpsDb ("sv1", "lop1", "2025-01-01") =
      MAX_GPS_INVALID_ATTEMPTS ∧
    (passInput.student_id, passInput.class_id, passInput.today) =
      ("sv1", "lop1", "2025-01-01") ∧
    (attendance_checkin passInput blockedGpsDb emptyAttendance).outcome =
      CheckinOutcome.success ∧
    (attendance_checkin passInput blockedGpsDb emptyAttendance).recorded = true := by
  refine ⟨by norm_num [get_gps_invalid_attempt_count, blockedGpsDb,
    MAX_GPS_INVALID_ATTEMPTS], rfl, ?_, ?_⟩ <;>
  · norm_num [attendance_checkin, passInput, openFrame, checkin_liveness_data,
      checkinAnalyzer, LivenessAnalyzer.analyze_frame, EyeBlinkDetector.init,
      EyeBlinkDetector.detect_blink, MouthMovementDetector.init,
      MouthMovementDetector.detect_mouth_movement, HeadMovementTracker.init,
      HeadMovementTracker.track_head_movement, dequePush, dequePushPose,
      defaultScoreCalculator, LivenessScoreCalculator.calculate_liveness_score,
      LivenessScoreCalculator.is_liveness_verified, clip01,
      FrontalFaceValidator.validate_frontal_face, CHECKIN_LIVENESS_THRESHOLD,
      DEEPFAKE_THRESHOLD, SIMILARITY_THRESHOLD, RADIUS_METERS,
      check_gps_invalid_limit, get_gps_invalid_attempt_count, blockedGpsDb,
      emptyAttendance, MAX_GPS_INVALID_ATTEMPTS]

set_option maxHeartbeats 1600000 in
/-- C2 amended: every operation on the GPS-invalid counter preserves the
invariant attempt_count = len(attempts) — both the atomic
increment-and-push and any full check-in request — and once
attempt_count ≥ MAX_GPS_INVALID_ATTEMPTS, every further check-in attempt
for that key whose GPS location is out of range (the only situation in
which the counter is consulted) is rejected as gps_invalid_max_attempts
without incrementing and without recording attendance; an attempt with a
valid GPS location is not blocked by the counter (see the
counterexample). -/
theorem gps_counter_invariant_amended_C2 :
    ∀ (inp : CheckinInput) (db : GpsDb) (att : AttendanceDb) (k : GpsKey)
      (detail : GpsAttemptDetail),
      (GpsDbWellFormed db → GpsDbWellFormed (attendance_checkin inp db att).gps_db) ∧
      (GpsDbWellFormed db →
        GpsDbWellFormed (increment_gps_invalid_attempt db k detail).1) ∧
      (PassesToGpsStage inp → ¬ inp.gps_distance ≤ RADIUS_METERS →
        MAX_GPS_INVALID_ATTEMPTS ≤ get_gps_invalid_attempt_count db
          (inp.student_id, inp.class_id, inp.today) →
        (attendance_checkin inp db att).outcome =
          CheckinOutcome.rejected .gpsInvalidMaxAttempts
            (some (get_gps_invalid_attempt_count db
              (inp.student_id, inp.class_id, inp.today))) (some 0) ∧
        (attendance_checkin inp db att).gps_db = db ∧
        (attendance_checkin inp db att).recorded = false) := by
  intro inp db att k detail
  refine ⟨?_, fun hwf => increment_preserves_wf db k detail hwf, ?_⟩
  · intro hwf
    obtain ⟨sid, cid, day, lat, lon, ts, role, hfe, iv, fr, conf, sim, dist⟩ := inp
    cases sim with
    | none =>
      unfold attendance_checkin
      dsimp only
      split_ifs <;> exact hwf
    | some s =>
      unfold attendance_checkin
      dsimp only
      split_ifs <;>
        first
        | exact hwf
        | exact increment_preserves_wf db (sid, cid, day) _ hwf
  · intro hpass hfar hblocked
    rw [checkin_gps_blocked inp db att hpass hfar hblocked]
    exact ⟨rfl, rfl, rfl⟩

/-- C2 amended witness: the amended theorem applied to the concrete blocked
collection (count 2 for the key of `farInput`) and a far-away request. -/
theorem gps_counter_invariant_amended_C2_witness :
    GpsDbWellFormed (attendance_checkin farInput blockedGpsDb emptyAttendance).gps_db ∧
    (attendance_checkin farInput blockedGpsDb emptyAttendance).outcome =
      CheckinOutcome.rejected .gpsInvalidMaxAttempts
        (some (get_gps_invalid_attempt_count blockedGpsDb
          ("sv1", "lop1", "2025-01-01"))) (some 0) ∧
    (attendance_checkin farInput blockedGpsDb emptyAttendance).gps_db =
      blockedGpsDb := by
  have hwf : GpsDbWellFormed blockedGpsDb := by
    intro k r hr
    unfold blockedGpsDb at hr
    by_cases hk : k = ("sv1", "lop1", "2025-01-01")
    · rw [if_pos hk] at hr
      have hre := (Option.some_inj.mp hr).symm
      subst hre
      rfl
    · rw [if_neg hk] at hr
      cases hr
  have hpass : PassesToGpsStage farInput := by
    refine ⟨rfl, rfl, rfl, rfl, ?_, 9/10, rfl, ?_⟩ <;>
      norm_num [farInput, passInput, DEEPFAKE_THRESHOLD, SIMILARITY_THRESHOLD]
  have hfar : ¬ farInput.gps_distance ≤ RADIUS_METERS := by
    norm_num [farInput, passInput, RADIUS_METERS]
  have hblocked : MAX_GPS_INVALID_ATTEMPTS ≤ get_gps_invalid_attempt_count
      blockedGpsDb (farInput.student_id, farInput.class_id, farInput.today) := by
    norm_num [get_gps_invalid_attempt_count, blockedGpsDb, farInput, passInput,
      MAX_GPS_INVALID_ATTEMPTS]
  have h := gps_counter_invariant_amended_C2 farInput blockedGpsDb emptyAttendance
    ("sv1", "lop1", "2025-01-01") sampleDetail
  have h3 := h.2.2 hpass hfar hblocked
  exact ⟨h3.2.1 ▸ h.1 hwf, h3.1, h3.2.1⟩

/-- C3 counterexample: on a concrete check-in frame (frontal face, eyes
open, mouth closed) the indicator-based score of
`LivenessScoreCalculator.calculate_liveness_score` is 0, below the
configured threshold 0.6, yet the liveness stage passes — and the whole
check-in succeeds — because the stage's pass/fail decision uses the ad-hoc
frontal/pose score against threshold 0.5, not the indicator-based score. -/
theorem liveness_stage_counterexample_C3 :
    (checkin_liveness_data openFrame).indicator_score <
      defaultScoreCalculator.threshold ∧
    ¬ ((checkin_liveness_data openFrame).final_score <
      CHECKIN_LIVENESS_THRESHOLD) ∧
    (attendance_checkin passInput emptyGpsDb emptyAttendance).outcome =
      CheckinOutcome.success := by
  refine ⟨?_, ?_, ?_⟩ <;>
  · norm_num [attendance_checkin, passInput, openFrame, checkin_liveness_data,
      checkinAnalyzer, LivenessAnalyzer.analyze_frame, EyeBlinkDetector.init,
      EyeBlinkDetector.detect_blink, MouthMovementDetector.init,
      MouthMovementDetector.detect_mouth_movement, HeadMovementTracker.init,
      HeadMovementTracker.track_head_movement, dequePush, dequePushPose,
      defaultScoreCalculator, LivenessScoreCalculator.calculate_liveness_score,
      LivenessScoreCalculator.is_liveness_verified, clip01,
      FrontalFaceValidator.validate_frontal_face, CHECKIN_LIVENESS_THRESHOLD,
      DEEPFAKE_THRESHOLD, SIMILARITY_THRESHOLD, RADIUS_METERS,
      check_gps_invalid_limit, get_gps_invalid_attempt_count, emptyGpsDb,
      emptyAttendance, MAX_GPS_INVALID_ATTEMPTS]

set_option maxHeartbeats 1600000 in
/-- C3 amended: the check-in liveness stage's final score is always at
least the check-in threshold 0.5 (its base score alone reaches the
threshold), so once the setup checks pass, the stage rejects a request
with the liveness-failure error exactly when no face was detected; the
indicator-based score of section 4.2/4.3 is computed but plays no role in
the pass/fail outcome. -/
theorem liveness_stage_amended_C3 :
    ∀ (inp : CheckinInput) (db : GpsDb) (att : AttendanceDb)
      (frame : CheckinFrame),
      CHECKIN_LIVENESS_THRESHOLD ≤ (checkin_liveness_data frame).final_score ∧
      (inp.role_is_student = true → inp.has_face_embedding = true →
        inp.image_valid = true →
        ((attendance_checkin inp db att).outcome =
            CheckinOutcome.rejected .livenessFailed none none ↔
          inp.frame.face_detected = false)) := by
  intro inp db att frame
  refine ⟨checkin_final_score_ge_threshold frame, ?_⟩
  intro h1 h2 h3
  by_cases hf : inp.frame.face_detected = false
  · have heq : attendance_checkin inp db att =
        { outcome := CheckinOutcome.rejected .livenessFailed none none
          embed_called := false, recorded := false, gps_db := db
          attendance := att } := by
      unfold attendance_checkin
      dsimp only
      rw [if_neg (by simp [h1]), if_neg (by simp [h2]), if_neg (by simp [h3]),
        if_pos hf]
    rw [heq]
    simp [hf]
  · constructor
    · intro hout
      exfalso
      unfold attendance_checkin at hout
      dsimp only at hout
      rw [if_neg (by simp [h1]), if_neg (by simp [h2]), if_neg (by simp [h3]),
        if_neg hf] at hout
      rw [if_neg (not_lt.mpr (checkin_final_score_ge_threshold inp.frame))] at hout
      by_cases hdf : DEEPFAKE_THRESHOLD < inp.deepfake_confidence
      · rw [if_pos hdf] at hout
        exact absurd hout (by simp)
      · rw [if_neg hdf] at hout
        split at hout
        · exact absurd hout (by simp)
        · split_ifs at hout <;> exact absurd hout (by simp)
    · intro hface
      exact absurd hface hf

/-- C3 amended witness: the amended theorem applied to a concrete no-face
request: its check-in is rejected with the liveness-failure error. -/
theorem liveness_stage_amended_C3_witness :
    CHECKIN_LIVENESS_THRESHOLD ≤ (checkin_liveness_data noFaceFrame).final_score ∧
    (attendance_checkin noFaceInput emptyGpsDb emptyAttendance).outcome =
      CheckinOutcome.rejected .livenessFailed none none := by
  have h := liveness_stage_amended_C3 noFaceInput emptyGpsDb emptyAttendance
    noFaceFrame
  exact ⟨h.1, (h.2 rfl rfl rfl).mpr rfl⟩

/-- C4: whenever the check-in liveness stage fails (no face detected, or
the stage's final score below the check-in threshold), the pipeline
short-circuits: the embedding collaborator `get_face_embedding` is never
invoked, no attendance record is written, and neither shared collection
changes. -/
theorem liveness_failfast_C4 :
    ∀ (inp : CheckinInput) (db : GpsDb) (att : AttendanceDb),
      LivenessStageFails inp →
      (attendance_checkin inp db att).embed_called = false ∧
      (attendance_checkin inp db att).recorded = false ∧
      (attendance_checkin inp db att).gps_db = db ∧
      (attendance_checkin inp db att).attendance = att := by
  intro inp db att hfails
  unfold attendance_checkin
  dsimp only
  by_cases h1 : inp.role_is_student = false
  · rw [if_pos h1]
    exact ⟨rfl, rfl, rfl, rfl⟩
  rw [if_neg h1]
  by_cases h2 : inp.has_face_embedding = false
  · rw [if_pos h2]
    exact ⟨rfl, rfl, rfl, rfl⟩
  rw [if_neg h2]
  by_cases h3 : inp.image_valid = false
  · rw [if_pos h3]
    exact ⟨rfl, rfl, rfl, rfl⟩
  rw [if_neg h3]
  by_cases h4 : inp.frame.face_detected = false
  · rw [if_pos h4]
    exact ⟨rfl, rfl, rfl, rfl⟩
  rw [if_neg h4]
  have hscore : (checkin_liveness_data inp.frame).final_score <
      CHECKIN_LIVENESS_THRESHOLD := by
    rcases hfails with hf | hs
    · exact absurd hf h4
    · exact hs
  rw [if_pos hscore]
  exact ⟨rfl, rfl, rfl, rfl⟩

/-- C4 witness: the theorem applied to a concrete no-face request. -/
theorem liveness_failfast_C4_witness :
    (attendance_checkin noFaceInput emptyGpsDb emptyAttendance).embed_called =
      false ∧
    (attendance_checkin noFaceInput emptyGpsDb emptyAttendance).recorded =
      false ∧
    (attendance_checkin noFaceInput emptyGpsDb emptyAttendance).gps_db =
      emptyGpsDb ∧
    (attendance_checkin noFaceInput emptyGpsDb emptyAttendance).attendance =
      emptyAttendance :=
  liveness_failfast_C4 noFaceInput emptyGpsDb emptyAttendance (Or.inl rfl)

/-- C8: enrollment is atomic with respect to the stored template — every
typed failure (too few images, fewer than 8 surviving frames after
frontal/embedding filtering, or yaw/pitch diversity below 0.5°) leaves the
stored template completely unchanged; the survivor-count failure and the
diversity failure produce their respective typed errors; and the template
is overwritten wholesale exactly on full success. -/
theorem setup_faceid_atomic_C8 :
    ∀ (images : List FrameProcessResult) (stored : Option FaceEmbeddingTemplate),
      (∀ e, (setup_faceid images stored).1 = Sum.inl e →
        (setup_faceid images stored).2 = stored) ∧
      (SETUP_MIN_IMAGES ≤ images.length →
        (collectValidFrames images).length < SETUP_MIN_VALID_FRAMES →
        (setup_faceid images stored).1 =
          Sum.inl SetupError.insufficientValidFrames) ∧
      (SETUP_MIN_IMAGES ≤ images.length →
        SETUP_MIN_VALID_FRAMES ≤ (collectValidFrames images).length →
        (rangeOf ((collectValidFrames images).map (fun f => f.yaw)) <
            SETUP_DIVERSITY_MIN ∨
         rangeOf ((collectValidFrames images).map (fun f => f.pitch)) <
            SETUP_DIVERSITY_MIN) →
        (setup_faceid images stored).1 =
          Sum.inl SetupError.insufficientPoseDiversity) ∧
      (∀ t, (setup_faceid images stored).1 = Sum.inr t →
        (setup_faceid images stored).2 = some t) := by
  intro images stored
  unfold setup_faceid
  dsimp only
  split_ifs with hA hB hC
  · exact ⟨fun e he => rfl,
      fun hge _ => absurd hA (not_lt.mpr hge),
      fun hge _ _ => absurd hA (not_lt.mpr hge),
      fun t ht => absurd ht (by simp)⟩
  · exact ⟨fun e he => rfl,
      fun _ _ => rfl,
      fun _ hge _ => absurd hB (not_lt.mpr hge),
      fun t ht => absurd ht (by simp)⟩
  · exact ⟨fun e he => rfl,
      fun _ hlt => absurd hlt hB,
      fun _ _ _ => rfl,
      fun t ht => absurd ht (by simp)⟩
  · refine ⟨fun e he => absurd he (by simp),
      fun _ hlt => absurd hlt hB,
      fun _ _ hor => absurd hor hC,
      fun t ht => ?_⟩
    injection ht with h
    rw [h]

/-- C8 witness: the theorem applied to ten frames that all fail per-frame
processing, with a template already stored — the result is the typed
insufficient-frames error and the stored template is untouched. -/
theorem setup_faceid_atomic_C8_witness :
    (setup_faceid tenErrFrames (some sampleTemplate)).1 =
      Sum.inl SetupError.insufficientValidFrames ∧
    (setup_faceid tenErrFrames (some sampleTemplate)).2 = some sampleTemplate := by
  have h := setup_faceid_atomic_C8 tenErrFrames (some sampleTemplate)
  have h1 := h.2.1 (by decide) (by decide)
  exact ⟨h1, h.1 SetupError.insufficientValidFrames h1⟩

lemma npClip_le (x lo hi : ℝ) : npClip x lo hi ≤ hi := min_le_left _ _

lemma le_npClip (x lo hi : ℝ) (h : lo ≤ hi) : lo ≤ npClip x lo hi :=
  le_min h (le_max_left _ _)

lemma anglesFromRotation_bounds (R : Mat3) :
    |(anglesFromRotation R).1| ≤ 90 ∧ |(anglesFromRotation R).2.1| ≤ 45 ∧
      |(anglesFromRotation R).2.2| ≤ 30 := by
  unfold anglesFromRotation
  dsimp only
  exact ⟨abs_le.mpr ⟨le_npClip _ _ _ (by norm_num), npClip_le _ _ _⟩,
    abs_le.mpr ⟨le_npClip _ _ _ (by norm_num), npClip_le _ _ _⟩,
    abs_le.mpr ⟨le_npClip _ _ _ (by norm_num), npClip_le _ _ _⟩⟩

/-- C9 counterexample: `rotation_vector_to_euler` applies no clamping — on
the rotation matrix of a 180-degree rotation about the x-axis it returns
pitch = 180°, far outside the claimed [-45, 45] range, to its caller
(`detect_face_pose`), refuting "on every code path that yields angles the
result is clamped to these ranges before being returned". -/
theorem pose_euler_unclamped_counterexample_C9 :
    (rotation_vector_to_euler pitchFlipMatrix).1 = 180 ∧
    ¬ |(rotation_vector_to_euler pitchFlipMatrix).1| ≤ 45 := by
  have hpitch : (rotation_vector_to_euler pitchFlipMatrix).1 = 180 := by
    unfold rotation_vector_to_euler pitchFlipMatrix
    dsimp only
    rw [show Real.sqrt ((1:ℝ) ^ 2 + 0 ^ 2) = 1 by
      rw [show (1:ℝ) ^ 2 + 0 ^ 2 = 1 by norm_num, Real.sqrt_one]]
    rw [if_neg (by norm_num)]
    dsimp only
    rw [show atan2 (0:ℝ) (-1) = Real.pi by
      unfold atan2
      rw [if_neg (by norm_num), if_pos (by norm_num : (-1:ℝ) < 0 ∧ (0:ℝ) ≤ 0)]
      norm_num [Real.arctan_zero]]
    unfold degrees
    rw [mul_comm, mul_div_assoc, div_self Real.pi_ne_zero, mul_one]
  refine ⟨hpitch, ?_⟩
  rw [hpitch]
  norm_num

/-- C9 amended: every angle triple in the `angle_info` returned by
`detect_face_pose_and_angle` satisfies yaw ∈ [-90, 90], pitch ∈ [-45, 45]
and roll ∈ [-30, 30] on every branch (zeros on the fallback branches, the
final clamps on the PnP branch); `rotation_vector_to_euler`, however,
returns unclamped Euler angles to its caller (see the counterexample). -/
theorem pose_angles_clamped_amended_C9 :
    ∀ (o : PoseDetectOutcome) (a : ℝ × ℝ × ℝ),
      detect_face_pose_and_angle o = some a →
      |a.1| ≤ 90 ∧ |a.2.1| ≤ 45 ∧ |a.2.2| ≤ 30 := by
  intro o a ha
  cases o with
  | imageInvalid => cases ha
  | noFace => cases ha
  | dnnFallback =>
    cases ha
    norm_num
  | resizedFallback =>
    cases ha
    norm_num
  | insufficientLandmarks =>
    cases ha
    norm_num
  | pnpFailed =>
    cases ha
    norm_num
  | internalError =>
    cases ha
    norm_num
  | solved R =>
    cases ha
    exact anglesFromRotation_bounds R

/-- C9 amended witness: the theorem applied to the DNN-fallback branch,
whose returned angles are (0, 0, 0). -/
theorem pose_angles_clamped_amended_C9_witness :
    detect_face_pose_and_angle PoseDetectOutcome.dnnFallback =
      some ((0:ℝ), (0:ℝ), (0:ℝ)) ∧
    |((0:ℝ), (0:ℝ), (0:ℝ)).1| ≤ 90 ∧ |((0:ℝ), (0:ℝ), (0:ℝ)).2.1| ≤ 45 ∧
      |((0:ℝ), (0:ℝ), (0:ℝ)).2.2| ≤ 30 :=
  ⟨rfl, pose_angles_clamped_amended_C9 PoseDetectOutcome.dnnFallback
    ((0:ℝ), (0:ℝ), (0:ℝ)) rfl⟩
